import Mathlib

/-!
Shallow embedding of `src/weather_utils.py` (weather_pipeline repository):
the four core functions `fetch_weather_data`, `parse_weather_response`,
`validate_weather_record` and `get_weather_description`, together with
theorems settling the specification claims about them.

Modelling conventions:
* Python dictionary / JSON values are modelled by the inductive `PyVal`;
  numbers are rationals (every literal appearing in the claims is an exact
  decimal, and the code only compares numbers, never does float arithmetic).
* A Python dictionary is an association list `List (String × PyVal)`;
  `dget` is presence-aware key lookup, `pyGet` is `d.get(k, default)`.
* A raised exception that the source code lets escape a sub-expression is
  an `Except.error ()` / `Option.none` value; the `try/except` blocks of
  `fetch_weather_data` and `parse_weather_response` turn any such error
  into the returned `none`.
* The HTTP transport of `fetch_weather_data` is an explicit
  `TransportOutcome` argument; the wall clock (`datetime.now()`) is passed
  as explicit ISO-string arguments (`now_iso` for the `current.time`
  fallback, `fetch_now` for the `fetch_time` field).
-/

/-- A Python/JSON value as stored in the dictionaries handled by
`weather_utils.py`: `None`, a number, a string, a `datetime` object
(identified by the ISO string it was parsed from), or a nested dict. -/
inductive PyVal where
  | null : PyVal
  | num : ℚ → PyVal
  | str : String → PyVal
  | dt : String → PyVal
  | obj : List (String × PyVal) → PyVal

/-- Dictionary lookup: `some v` when the key is present with value `v`
(which may be `PyVal.null`, i.e. Python `None`), `none` when absent. -/
def dget (d : List (String × PyVal)) (k : String) : Option PyVal :=
  match d with
  | [] => none
  | (k0, v) :: rest => if k0 = k then some v else dget rest k

/-- Python `d.get(k, default)`: the stored value when the key is present
(even when that value is `None`), otherwise the default. -/
def pyGet (d : List (String × PyVal)) (k : String) (default : PyVal) : PyVal :=
  (dget d k).getD default

/-- Python truth-value test (`if not current:`): `None`, `0`, the empty
string and the empty dict are falsy; everything else is truthy. -/
def pyFalsy : PyVal → Bool
  | .null => true
  | .num q => q == 0
  | .str s => s == ""
  | .dt _ => false
  | .obj l => l.isEmpty

/-- Two ASCII digit characters read as a two-digit number, when both are
digits. -/
def digits2 (a b : Char) : Option Nat :=
  if a.isDigit && b.isDigit then some ((a.toNat - 48) * 10 + (b.toNat - 48))
  else none

/-- Model of the date part accepted by Python `datetime.fromisoformat`:
exactly `YYYY-MM-DD` with a plausible month and day. -/
def validDatePart : List Char → Bool
  | [y1, y2, y3, y4, c1, m1, m2, c2, d1, d2] =>
    (y1.isDigit && y2.isDigit && y3.isDigit && y4.isDigit) &&
    (c1 = '-' && c2 = '-') &&
    (match digits2 m1 m2, digits2 d1 d2 with
     | some m, some d => decide (1 ≤ m) && decide (m ≤ 12) && decide (1 ≤ d) && decide (d ≤ 31)
     | _, _ => false)
  | _ => false

/-- Model of the time-of-day part accepted by Python
`datetime.fromisoformat`: `HH:MM`, `HH:MM:SS`, or `HH:MM:SS.digits`. -/
def validTimePart : List Char → Bool
  | h1 :: h2 :: c1 :: m1 :: m2 :: rest =>
    (c1 = ':') &&
    (match digits2 h1 h2, digits2 m1 m2 with
     | some h, some m =>
       decide (h ≤ 23) && decide (m ≤ 59) &&
       (match rest with
        | [] => true
        | c2 :: s1 :: s2 :: rest2 =>
          (c2 = ':') &&
          (match digits2 s1 s2 with
           | some s =>
             decide (s ≤ 59) &&
             (match rest2 with
              | [] => true
              | dot :: frac => (dot = '.') && !frac.isEmpty && frac.all Char.isDigit)
           | none => false)
        | _ => false)
     | _, _ => false)
  | _ => false

/-- Model of the ISO-8601 strings accepted by Python
`datetime.fromisoformat`: a date, optionally followed by a separator
(`T` or space) and a time of day. -/
def isValidIsoString (s : String) : Bool :=
  let cs := s.toList
  validDatePart (cs.take 10) &&
    (match cs.drop 10 with
     | [] => true
     | c :: rest => (c = 'T' || c = ' ') && validTimePart rest)

/-- Model of `datetime.fromisoformat(x)` as used by the source: parsing a
valid ISO string yields the corresponding `datetime` (identified by that
string); a malformed string or a non-string argument raises, which the
embedding reports as `none`. -/
def fromisoformat : PyVal → Option String
  | .str s => if isValidIsoString s then some s else none
  | _ => none

/-- The `required_fields` list of `validate_weather_record`. -/
def required_fields : List String :=
  ["timestamp", "latitude", "longitude", "temperature", "city"]

/-- Python `v is None`. -/
def isNull : PyVal → Bool
  | .null => true
  | _ => false

/-- The per-field test of the loop in `validate_weather_record`:
`field not in record or record[field] is None`. -/
def fieldMissingOrNull (r : List (String × PyVal)) (f : String) : Bool :=
  match dget r f with
  | none => true
  | some v => isNull v

/-- Python chained comparison `lo <= v <= hi` on a record value: a number
is compared; any non-numeric value raises `TypeError`, reported as
`Except.error ()`. -/
def cmpRange (lo : ℚ) (v : PyVal) (hi : ℚ) : Except Unit Bool :=
  match v with
  | .num q => .ok (decide (lo ≤ q) && decide (q ≤ hi))
  | _ => .error ()

/-- `validate_weather_record(record)` from `src/weather_utils.py`:
`False` for `None`; `False` when any required field is missing or `None`;
then range checks on latitude, longitude and temperature (each of which
raises `TypeError` — `Except.error ()` — when the stored value is not a
number); `True` when every check passes. -/
def validate_weather_record (record : Option (List (String × PyVal))) :
    Except Unit Bool :=
  match record with
  | none => .ok false
  | some r =>
    if required_fields.any (fieldMissingOrNull r) then .ok false
    else
      match cmpRange (-90) ((dget r "latitude").getD .null) 90 with
      | .error e => .error e
      | .ok latOk =>
        if !latOk then .ok false
        else
          match cmpRange (-180) ((dget r "longitude").getD .null) 180 with
          | .error e => .error e
          | .ok lonOk =>
            if !lonOk then .ok false
            else
              match cmpRange (-100) ((dget r "temperature").getD .null) 60 with
              | .error e => .error e
              | .ok tempOk =>
                if !tempOk then .ok false else .ok true

/-- The `weather_codes` table of `get_weather_description`. -/
def weather_codes : List (Int × String) :=
  [(0, "Clear sky"),
   (1, "Mainly clear"),
   (2, "Partly cloudy"),
   (3, "Overcast"),
   (45, "Fog"),
   (48, "Depositing rime fog"),
   (51, "Light drizzle"),
   (53, "Moderate drizzle"),
   (55, "Dense drizzle"),
   (61, "Slight rain"),
   (63, "Moderate rain"),
   (65, "Heavy rain"),
   (71, "Slight snow"),
   (73, "Moderate snow"),
   (75, "Heavy snow"),
   (77, "Snow grains"),
   (80, "Slight rain showers"),
   (81, "Moderate rain showers"),
   (82, "Violent rain showers"),
   (85, "Slight snow showers"),
   (86, "Heavy snow showers"),
   (95, "Thunderstorm"),
   (96, "Thunderstorm with slight hail"),
   (99, "Thunderstorm with heavy hail")]

/-- Dictionary lookup by integer key, modelling `weather_codes.get`. -/
def lookup_code (code : Int) : List (Int × String) → Option String
  | [] => none
  | (k, v) :: rest => if code = k then some v else lookup_code code rest

/-- `get_weather_description(weather_code)` from `src/weather_utils.py`:
table lookup with default `"Unknown"`. -/
def get_weather_description (weather_code : Int) : String :=
  (lookup_code weather_code weather_codes).getD "Unknown"

/-- The outcome of the `requests.get` / `raise_for_status` / `json()`
sequence inside `fetch_weather_data`: either the request itself raises
(network error, timeout), or a response arrives with an HTTP status and a
body whose JSON decoding either succeeds with a value or raises. -/
inductive TransportOutcome where
  | raises : TransportOutcome
  | response : Nat → Except Unit PyVal → TransportOutcome

/-- `fetch_weather_data` from `src/weather_utils.py`, with the transport
and the two `datetime.now()` readings as explicit arguments. Any raise
inside the `try` block (transport error, `raise_for_status` on a 4xx/5xx
status, JSON decode error, `.get` on a non-dict, `fromisoformat` on a bad
time value) is caught and turned into the returned `none`. -/
def fetch_weather_data (transport : TransportOutcome) (latitude longitude : ℚ)
    (city : String) (now_iso fetch_now : String) :
    Option (List (String × PyVal)) :=
  match transport with
  | .raises => none
  | .response status body =>
    if 400 ≤ status ∧ status < 600 then none
    else
      match body with
      | .error _ => none
      | .ok data =>
        match data with
        | .obj fields =>
          match pyGet fields "current" (.obj []) with
          | .obj cfields =>
            match fromisoformat (pyGet cfields "time" (.str now_iso)) with
            | none => none
            | some ts =>
              some [("timestamp", .dt ts),
                    ("latitude", .num latitude),
                    ("longitude", .num longitude),
                    ("temperature", pyGet cfields "temperature_2m" .null),
                    ("humidity", pyGet cfields "relative_humidity_2m" .null),
                    ("wind_speed", pyGet cfields "wind_speed_10m" .null),
                    ("wind_direction", pyGet cfields "wind_direction_10m" .null),
                    ("weather_code", pyGet cfields "weather_code" .null),
                    ("city", .str city),
                    ("fetch_time", .dt fetch_now)]
          | _ => none
        | _ => none

/-- `parse_weather_response(api_response, city)` from
`src/weather_utils.py`, with the two `datetime.now()` readings as explicit
arguments. Returns `none` when `current` is missing or falsy; any raise
inside the `try` block (`.get` on a non-dict, `fromisoformat` on a bad
time value) is caught and turned into `none`. -/
def parse_weather_response (api_response : PyVal) (city : String)
    (now_iso fetch_now : String) : Option (List (String × PyVal)) :=
  match api_response with
  | .obj fields =>
    let current := pyGet fields "current" (.obj [])
    if pyFalsy current then none
    else
      match current with
      | .obj cfields =>
        match fromisoformat (pyGet cfields "time" (.str now_iso)) with
        | none => none
        | some ts =>
          some [("timestamp", .dt ts),
                ("latitude", pyGet fields "latitude" .null),
                ("longitude", pyGet fields "longitude" .null),
                ("temperature", pyGet cfields "temperature_2m" .null),
                ("humidity", pyGet cfields "relative_humidity_2m" .null),
                ("wind_speed", pyGet cfields "wind_speed_10m" .null),
                ("wind_direction", pyGet cfields "wind_direction_10m" .null),
                ("weather_code", pyGet cfields "weather_code" .null),
                ("city", .str city),
                ("fetch_time", .dt fetch_now)]
      | _ => none
  | _ => none

/-- Per-field precondition under which the range checks of
`validate_weather_record` cannot raise: the field is absent, `None`, or a
number. -/
def numericOrMissing (r : List (String × PyVal)) (f : String) : Bool :=
  match dget r f with
  | none => true
  | some .null => true
  | some (.num _) => true
  | some _ => false

/-- Precondition on a whole (possibly absent) record under which
`validate_weather_record` cannot raise: each of the three range-checked
fields is absent, `None`, or a number. -/
def recNumericOrMissing : Option (List (String × PyVal)) → Bool
  | none => true
  | some r =>
    numericOrMissing r "latitude" && numericOrMissing r "longitude" &&
      numericOrMissing r "temperature"

/-- The raw API response of end-to-end scenario A of the specification. -/
def sampleResponseA : List (String × PyVal) :=
  [("latitude", .num (51.05 : ℚ)),
   ("longitude", .num (-114.05 : ℚ)),
   ("current", .obj
     [("time", .str "2025-01-28T10:00"),
      ("temperature_2m", .num (-5.2 : ℚ)),
      ("relative_humidity_2m", .num 72),
      ("wind_speed_10m", .num (15.5 : ℚ)),
      ("wind_direction_10m", .num 270),
      ("weather_code", .num 3)])]

/-- The record produced by parsing `sampleResponseA` with city
`"Calgary"`, as a function of the `fetch_time` clock reading. -/
def recordA (fetch_now : String) : List (String × PyVal) :=
  [("timestamp", .dt "2025-01-28T10:00"),
   ("latitude", .num (51.05 : ℚ)),
   ("longitude", .num (-114.05 : ℚ)),
   ("temperature", .num (-5.2 : ℚ)),
   ("humidity", .num 72),
   ("wind_speed", .num (15.5 : ℚ)),
   ("wind_direction", .num 270),
   ("weather_code", .num 3),
   ("city", .str "Calgary"),
   ("fetch_time", .dt fetch_now)]

/-- C2: `get_weather_description` returns the documented description for
each of the 23 known WMO codes, and `"Unknown"` for every other integer
input, including negative numbers; it is total and always returns a
string. -/
theorem get_weather_description_table :
    (get_weather_description 0 = "Clear sky" ∧
     get_weather_description 1 = "Mainly clear" ∧
     get_weather_description 2 = "Partly cloudy" ∧
     get_weather_description 3 = "Overcast" ∧
     get_weather_description 45 = "Fog" ∧
     get_weather_description 48 = "Depositing rime fog" ∧
     get_weather_description 51 = "Light drizzle" ∧
     get_weather_description 53 = "Moderate drizzle" ∧
     get_weather_description 55 = "Dense drizzle" ∧
     get_weather_description 61 = "Slight rain" ∧
     get_weather_description 63 = "Moderate rain" ∧
     get_weather_description 65 = "Heavy rain" ∧
     get_weather_description 71 = "Slight snow" ∧
     get_weather_description 73 = "Moderate snow" ∧
     get_weather_description 75 = "Heavy snow" ∧
     get_weather_description 77 = "Snow grains" ∧
     get_weather_description 80 = "Slight rain showers" ∧
     get_weather_description 81 = "Moderate rain showers" ∧
     get_weather_description 82 = "Violent rain showers" ∧
     get_weather_description 85 = "Slight snow showers" ∧
     get_weather_description 86 = "Heavy snow showers" ∧
     get_weather_description 95 = "Thunderstorm" ∧
     get_weather_description 96 = "Thunderstorm with slight hail" ∧
     get_weather_description 99 = "Thunderstorm with heavy hail") ∧
    ∀ c : Int, c ∉ weather_codes.map Prod.fst →
      get_weather_description c = "Unknown" := by
  constructor
  · exact ⟨rfl, rfl, rfl, rfl, rfl, rfl, rfl, rfl, rfl, rfl, rfl, rfl, rfl,
      rfl, rfl, rfl, rfl, rfl, rfl, rfl, rfl, rfl, rfl, rfl⟩
  · intro c hc
    simp only [weather_codes, List.map_cons, List.map_nil, List.mem_cons,
      List.not_mem_nil, or_false, not_or] at hc
    obtain ⟨h0, h1, h2, h3, h45, h48, h51, h53, h55, h61, h63, h65, h71,
      h73, h75, h77, h80, h81, h82, h85, h86, h95, h96, h99⟩ := hc
    simp [get_weather_description, lookup_code, weather_codes,
      h0, h1, h2, h3, h45, h48, h51, h53, h55, h61, h63, h65, h71,
      h73, h75, h77, h80, h81, h82, h85, h86, h95, h96, h99]

/-- Witness for C2: the unmapped code `-1` yields `"Unknown"`. -/
theorem get_weather_description_table_witness :
    get_weather_description (-1) = "Unknown" :=
  get_weather_description_table.2 (-1) (by decide)

/-- C4: `validate_weather_record` returns `False` on the absent record,
and on any record in which some required field is missing or `None`. -/
theorem validate_missing_or_null_false :
    validate_weather_record none = .ok false ∧
    ∀ (r : List (String × PyVal)) (f : String), f ∈ required_fields →
      (dget r f = none ∨ dget r f = some .null) →
      validate_weather_record (some r) = .ok false := by
  refine ⟨rfl, ?_⟩
  intro r f hf hmiss
  have hfield : fieldMissingOrNull r f = true := by
    rcases hmiss with h | h <;> simp [fieldMissingOrNull, h, isNull]
  have hany : required_fields.any (fieldMissingOrNull r) = true :=
    List.any_eq_true.mpr ⟨f, hf, hfield⟩
  simp [validate_weather_record, hany]

/-- Witness for C4: the empty record, which lacks the required `city`
field, is rejected. -/
theorem validate_missing_or_null_false_witness :
    validate_weather_record (some []) = .ok false :=
  validate_missing_or_null_false.2 [] "city" (by decide) (Or.inl rfl)

/-- C5: `parse_weather_response` returns the absent result on the empty
mapping and on a mapping whose `current` sub-object is present but
empty. -/
theorem parse_empty_current_absent :
    ∀ (city now_iso fetch_now : String),
      parse_weather_response (.obj []) city now_iso fetch_now = none ∧
      parse_weather_response (.obj [("current", .obj [])]) city now_iso
        fetch_now = none :=
  fun _ _ _ => ⟨rfl, rfl⟩

/-- Counterexample to C8: a record with all required fields present and
non-null but a string-valued latitude makes `validate_weather_record`
raise `TypeError` (Python `-90 <= "fifty-one"`), i.e. the embedding
returns `Except.error ()` rather than a boolean. -/
theorem validate_nonnumeric_raises :
    validate_weather_record (some
      [("timestamp", .dt "2025-01-28T10:00"),
       ("latitude", .str "fifty-one"),
       ("longitude", .num 0),
       ("temperature", .num 0),
       ("city", .str "Calgary")]) = .error () := rfl

/-- C8 (amended): `validate_weather_record` returns a boolean, and never
raises, on the absent record and on every record whose latitude,
longitude and temperature fields are each absent, `None`, or numeric. -/
theorem validate_total_on_numeric :
    ∀ (record : Option (List (String × PyVal))),
      recNumericOrMissing record = true →
      ∃ b, validate_weather_record record = .ok b := by
  intro record h
  match record with
  | none => exact ⟨false, rfl⟩
  | some r =>
    simp only [recNumericOrMissing, Bool.and_eq_true] at h
    obtain ⟨⟨hla, hlo⟩, hte⟩ := h
    by_cases hany : required_fields.any (fieldMissingOrNull r) = true
    · exact ⟨false, by simp [validate_weather_record, hany]⟩
    · have hall := List.any_eq_false.mp (Bool.not_eq_true _ ▸ hany)
      have hlaf : fieldMissingOrNull r "latitude" = false := by
        have := hall "latitude" (by simp [required_fields])
        simpa using this
      have hlof : fieldMissingOrNull r "longitude" = false := by
        have := hall "longitude" (by simp [required_fields])
        simpa using this
      have htef : fieldMissingOrNull r "temperature" = false := by
        have := hall "temperature" (by simp [required_fields])
        simpa using this
      obtain ⟨qla, hqla⟩ : ∃ q, dget r "latitude" = some (.num q) := by
        revert hla hlaf
        cases hd : dget r "latitude" with
        | none => simp [numericOrMissing, fieldMissingOrNull, hd]
        | some v =>
          cases v <;> simp [numericOrMissing, fieldMissingOrNull, hd, isNull]
      obtain ⟨qlo, hqlo⟩ : ∃ q, dget r "longitude" = some (.num q) := by
        revert hlo hlof
        cases hd : dget r "longitude" with
        | none => simp [numericOrMissing, fieldMissingOrNull, hd]
        | some v =>
          cases v <;> simp [numericOrMissing, fieldMissingOrNull, hd, isNull]
      obtain ⟨qte, hqte⟩ : ∃ q, dget r "temperature" = some (.num q) := by
        revert hte htef
        cases hd : dget r "temperature" with
        | none => simp [numericOrMissing, fieldMissingOrNull, hd]
        | some v =>
          cases v <;> simp [numericOrMissing, fieldMissingOrNull, hd, isNull]
      have key : ∀ (x y z : Bool), ∃ b : Bool,
          (if !x then (Except.ok false : Except Unit Bool)
           else if !y then .ok false
           else if !z then .ok false else .ok true) = .ok b := by
        intro x y z
        cases x <;> cases y <;> cases z <;> exact ⟨_, rfl⟩
      simp only [validate_weather_record, hany, if_false, Bool.false_eq_true,
        hqla, hqlo, hqte, Option.getD_some, cmpRange]
      exact key _ _ _

/-- Witness for C8 (amended): a fully numeric record is validated without
raising. -/
theorem validate_total_on_numeric_witness :
    ∃ b, validate_weather_record (some
      [("timestamp", .dt "2025-01-28T10:00"),
       ("latitude", .num 51),
       ("longitude", .num (-114)),
       ("temperature", .num (-5)),
       ("city", .str "Calgary")]) = .ok b :=
  validate_total_on_numeric _ (by decide)

/-- C9: the result of `validate_weather_record` depends only on the
required fields; two records that agree on `timestamp`, `latitude`,
`longitude`, `temperature` and `city` (and differ arbitrarily in
humidity, wind_speed, wind_direction, weather_code, fetch_time or any
other key) receive the same result. -/
theorem validate_depends_only_on_required :
    ∀ (r1 r2 : List (String × PyVal)),
      (∀ f ∈ required_fields, dget r1 f = dget r2 f) →
      validate_weather_record (some r1) = validate_weather_record (some r2) := by
  intro r1 r2 h
  have hts := h "timestamp" (by simp [required_fields])
  have hla := h "latitude" (by simp [required_fields])
  have hlo := h "longitude" (by simp [required_fields])
  have hte := h "temperature" (by simp [required_fields])
  have hc := h "city" (by simp [required_fields])
  simp only [validate_weather_record, required_fields, List.any_cons,
    List.any_nil, fieldMissingOrNull, hts, hla, hlo, hte, hc]

/-- Witness for C9: a record carrying a null `humidity` and one carrying
no optional fields at all validate identically. -/
theorem validate_depends_only_on_required_witness :
    validate_weather_record (some
      [("timestamp", .dt "2025-01-28T10:00"), ("latitude", .num 51),
       ("longitude", .num (-114)), ("temperature", .num (-5)),
       ("city", .str "Calgary"), ("humidity", .null), ("weather_code", .num 3)]) =
    validate_weather_record (some
      [("timestamp", .dt "2025-01-28T10:00"), ("latitude", .num 51),
       ("longitude", .num (-114)), ("temperature", .num (-5)),
       ("city", .str "Calgary"), ("humidity", .num 72)]) :=
  validate_depends_only_on_required _ _ (by intro f hf; fin_cases hf <;> rfl)

/-- Characterization of `validate_weather_record` on records whose
required fields are present, non-null and (for the three range-checked
ones) numeric: acceptance is exactly the conjunction of the three
inclusive range conditions. -/
theorem validate_ranges_characterization :
    ∀ (r : List (String × PyVal)) (lat lon temp : ℚ),
      fieldMissingOrNull r "timestamp" = false →
      fieldMissingOrNull r "city" = false →
      dget r "latitude" = some (.num lat) →
      dget r "longitude" = some (.num lon) →
      dget r "temperature" = some (.num temp) →
      (validate_weather_record (some r) = .ok true ↔
        ((-90 ≤ lat ∧ lat ≤ 90) ∧ (-180 ≤ lon ∧ lon ≤ 180) ∧
          (-100 ≤ temp ∧ temp ≤ 60))) := by
  intro r lat lon temp hts hc hla hlo hte
  have hlaf : fieldMissingOrNull r "latitude" = false := by
    simp [fieldMissingOrNull, hla, isNull]
  have hlof : fieldMissingOrNull r "longitude" = false := by
    simp [fieldMissingOrNull, hlo, isNull]
  have htef : fieldMissingOrNull r "temperature" = false := by
    simp [fieldMissingOrNull, hte, isNull]
  have hanyf : required_fields.any (fieldMissingOrNull r) = false := by
    simp [required_fields, List.any_cons, List.any_nil, hts, hc,
      hlaf, hlof, htef]
  simp only [validate_weather_record, hanyf, if_false, Bool.false_eq_true,
    hla, hlo, hte, Option.getD_some, cmpRange]
  by_cases h1 : (-90:ℚ) ≤ lat <;> by_cases h2 : lat ≤ (90:ℚ) <;>
    by_cases h3 : (-180:ℚ) ≤ lon <;> by_cases h4 : lon ≤ (180:ℚ) <;>
      by_cases h5 : (-100:ℚ) ≤ temp <;> by_cases h6 : temp ≤ (60:ℚ) <;>
        simp [h1, h2, h3, h4, h5, h6]

/-- C1: on a record whose required fields are all present and non-null
(with numeric latitude, longitude and temperature, as produced by the
pipeline), `validate_weather_record` returns `True` exactly when latitude
lies in `[-90, 90]`, longitude in `[-180, 180]` and temperature in
`[-100, 60]`; the bounds are inclusive and anything strictly outside is
rejected. -/
theorem validate_range_iff :
    ∀ (r : List (String × PyVal)) (lat lon temp : ℚ),
      fieldMissingOrNull r "timestamp" = false →
      fieldMissingOrNull r "city" = false →
      dget r "latitude" = some (.num lat) →
      dget r "longitude" = some (.num lon) →
      dget r "temperature" = some (.num temp) →
      (validate_weather_record (some r) = .ok true ↔
        ((-90 ≤ lat ∧ lat ≤ 90) ∧ (-180 ≤ lon ∧ lon ≤ 180) ∧
          (-100 ≤ temp ∧ temp ≤ 60))) :=
  validate_ranges_characterization

/-- Witness for C1: the boundary record with latitude 90, longitude -180
and temperature 60 is accepted. -/
theorem validate_range_iff_witness :
    validate_weather_record (some
      [("timestamp", .dt "2025-01-28T10:00"), ("latitude", .num 90),
       ("longitude", .num (-180)), ("temperature", .num 60),
       ("city", .str "Calgary")]) = .ok true :=
  (validate_range_iff
    [("timestamp", .dt "2025-01-28T10:00"), ("latitude", .num 90),
     ("longitude", .num (-180)), ("temperature", .num 60),
     ("city", .str "Calgary")] 90 (-180) 60 rfl rfl rfl rfl rfl).mpr (by decide)

/-- C3: `fetch_weather_data` never lets an error cross its boundary: on a
transport-level raise, on a 4xx/5xx status, on a JSON decode error, on a
body that is not a dict, and on an unparseable `current.time` value it
returns the absent result `none` instead of propagating the exception. -/
theorem fetch_failure_returns_none :
    ∀ (lat lon : ℚ) (city now_iso fetch_now : String),
      (fetch_weather_data .raises lat lon city now_iso fetch_now = none) ∧
      (∀ (s : Nat) (body : Except Unit PyVal), 400 ≤ s → s < 600 →
        fetch_weather_data (.response s body) lat lon city now_iso
          fetch_now = none) ∧
      (∀ (s : Nat),
        fetch_weather_data (.response s (.error ())) lat lon city now_iso
          fetch_now = none) ∧
      (∀ (s : Nat) (data : PyVal), (∀ fields, data ≠ .obj fields) →
        fetch_weather_data (.response s (.ok data)) lat lon city now_iso
          fetch_now = none) ∧
      (∀ (s : Nat) (fields : List (String × PyVal)) (cfields : List (String × PyVal)),
        pyGet fields "current" (.obj []) = .obj cfields →
        fromisoformat (pyGet cfields "time" (.str now_iso)) = none →
        fetch_weather_data (.response s (.ok (.obj fields))) lat lon city
          now_iso fetch_now = none) := by
  intro lat lon city now_iso fetch_now
  refine ⟨rfl, ?_, ?_, ?_, ?_⟩
  · intro s body h1 h2
    simp [fetch_weather_data, h1, h2]
  · intro s
    simp only [fetch_weather_data]
    split <;> rfl
  · intro s data hne
    simp only [fetch_weather_data]
    split
    · rfl
    · cases data with
      | obj fields => exact absurd rfl (hne fields)
      | null => rfl
      | num q => rfl
      | str v => rfl
      | dt v => rfl
  · intro s fields cfields hcur hiso
    simp only [fetch_weather_data, hcur, hiso]
    split <;> rfl

/-- Witness for C3: concrete instances of each failure mode all return
`none`. -/
theorem fetch_failure_returns_none_witness :
    fetch_weather_data .raises 1 2 "Calgary" "2025-01-28T10:00" "f" = none ∧
    fetch_weather_data (.response 404 (.ok (.obj []))) 1 2 "Calgary"
      "2025-01-28T10:00" "f" = none ∧
    fetch_weather_data (.response 200 (.error ())) 1 2 "Calgary"
      "2025-01-28T10:00" "f" = none ∧
    fetch_weather_data (.response 200 (.ok (.str "oops"))) 1 2 "Calgary"
      "2025-01-28T10:00" "f" = none ∧
    fetch_weather_data
      (.response 200 (.ok (.obj [("current", .obj [("time", .num 7)])])))
      1 2 "Calgary" "2025-01-28T10:00" "f" = none := by
  have h := fetch_failure_returns_none 1 2 "Calgary" "2025-01-28T10:00" "f"
  exact ⟨h.1,
    h.2.1 404 (.ok (.obj [])) (by decide) (by decide),
    h.2.2.1 200,
    h.2.2.2.1 200 (.str "oops") (fun fields heq => PyVal.noConfusion heq),
    h.2.2.2.2 200 [("current", .obj [("time", .num 7)])]
      [("time", .num 7)] rfl rfl⟩

/-- C10: whenever `fetch_weather_data` succeeds, the `latitude` and
`longitude` of the returned record are exactly the caller-supplied arguments,
regardless of any top-level coordinates in the response body. -/
theorem fetch_success_uses_caller_coordinates :
    ∀ (t : TransportOutcome) (lat lon : ℚ) (city now_iso fetch_now : String)
      (r : List (String × PyVal)),
      fetch_weather_data t lat lon city now_iso fetch_now = some r →
      dget r "latitude" = some (.num lat) ∧
        dget r "longitude" = some (.num lon) := by
  intro t lat lon city now_iso fetch_now r h
  cases t with
  | raises => exact absurd h (by simp [fetch_weather_data])
  | response s body =>
    simp only [fetch_weather_data] at h
    split at h
    · exact absurd h (by simp)
    · match body with
      | .error e => exact absurd h (by simp)
      | .ok data =>
        match data with
        | .null | .num _ | .str _ | .dt _ => exact absurd h (by simp)
        | .obj fields =>
          simp only at h
          split at h
          · split at h
            · exact absurd h (by simp)
            · obtain rfl : _ = r := Option.some.inj h
              exact ⟨rfl, rfl⟩
          · exact absurd h (by simp)

/-- Witness for C10: a successful fetch against an empty body stores the
caller-supplied coordinates 1 and 2. -/
theorem fetch_success_uses_caller_coordinates_witness :
    dget [("timestamp", .dt "2025-01-28T10:00"), ("latitude", .num 1),
          ("longitude", .num 2), ("temperature", .null), ("humidity", .null),
          ("wind_speed", .null), ("wind_direction", .null),
          ("weather_code", .null), ("city", .str "c"),
          ("fetch_time", .dt "f")] "latitude" = some (.num 1) ∧
    dget [("timestamp", .dt "2025-01-28T10:00"), ("latitude", .num 1),
          ("longitude", .num 2), ("temperature", .null), ("humidity", .null),
          ("wind_speed", .null), ("wind_direction", .null),
          ("weather_code", .null), ("city", .str "c"),
          ("fetch_time", .dt "f")] "longitude" = some (.num 2) :=
  fetch_success_uses_caller_coordinates (.response 200 (.ok (.obj []))) 1 2
    "c" "2025-01-28T10:00" "f" _ rfl

/-- C6: on any raw response whose `current` sub-object is a non-empty
dict, `parse_weather_response` produces exactly the record that the
success path of `fetch_weather_data` builds on the same body (same timestamp
derivation with wall-clock fallback, same per-field null defaults, same
`fetch_time`), except that `latitude` and `longitude` are taken from the
top-level fields of the response instead of the caller-supplied parameters. -/
theorem parse_matches_fetch_modulo_coordinates :
    ∀ (fields cfields : List (String × PyVal)) (lat lon : ℚ)
      (city now_iso fetch_now : String) (s : Nat),
      pyGet fields "current" (.obj []) = .obj cfields →
      cfields ≠ [] →
      ¬(400 ≤ s ∧ s < 600) →
      parse_weather_response (.obj fields) city now_iso fetch_now =
        (fetch_weather_data (.response s (.ok (.obj fields))) lat lon city
            now_iso fetch_now).map
          (fun r => r.map (fun kv =>
            if kv.1 = "latitude" then ("latitude", pyGet fields "latitude" .null)
            else if kv.1 = "longitude" then
              ("longitude", pyGet fields "longitude" .null)
            else kv)) := by
  intro fields cfields lat lon city now_iso fetch_now s hcur hne hs
  have hfalsy : pyFalsy (.obj cfields) = false := by
    simp [pyFalsy, List.isEmpty_iff, hne]
  simp only [parse_weather_response, fetch_weather_data, hcur, hfalsy, hs,
    if_false, Bool.false_eq_true]
  cases hiso : fromisoformat (pyGet cfields "time" (.str now_iso)) with
  | none => rfl
  | some ts => simp [List.map]

/-- Witness for C6: the scenario-A body parsed and fetched (with caller
coordinates 1 and 2) agree after redirecting the coordinate fields. -/
theorem parse_matches_fetch_modulo_coordinates_witness :
    parse_weather_response (.obj sampleResponseA) "Calgary"
        "2025-01-28T10:05" "f" =
      (fetch_weather_data (.response 200 (.ok (.obj sampleResponseA))) 1 2
          "Calgary" "2025-01-28T10:05" "f").map
        (fun r => r.map (fun kv =>
          if kv.1 = "latitude" then
            ("latitude", pyGet sampleResponseA "latitude" .null)
          else if kv.1 = "longitude" then
            ("longitude", pyGet sampleResponseA "longitude" .null)
          else kv)) :=
  parse_matches_fetch_modulo_coordinates sampleResponseA
    [("time", .str "2025-01-28T10:00"),
     ("temperature_2m", .num (-5.2 : ℚ)),
     ("relative_humidity_2m", .num 72),
     ("wind_speed_10m", .num (15.5 : ℚ)),
     ("wind_direction_10m", .num 270),
     ("weather_code", .num 3)] 1 2 "Calgary" "2025-01-28T10:05" "f" 200
    rfl (List.cons_ne_nil _ _) (by decide)

/-- C7: end-to-end scenario A — the sample raw response parsed with city
`"Calgary"` yields a (non-absent) record with temperature -5.2, humidity
72, weather_code 3 and city `"Calgary"`; `validate_weather_record`
accepts it; and `get_weather_description 3` is `"Overcast"`. -/
theorem scenario_A :
    ∀ (now_iso fetch_now : String),
      parse_weather_response (.obj sampleResponseA) "Calgary" now_iso
          fetch_now = some (recordA fetch_now) ∧
      dget (recordA fetch_now) "temperature" = some (.num (-5.2 : ℚ)) ∧
      dget (recordA fetch_now) "humidity" = some (.num 72) ∧
      dget (recordA fetch_now) "weather_code" = some (.num 3) ∧
      dget (recordA fetch_now) "city" = some (.str "Calgary") ∧
      validate_weather_record (some (recordA fetch_now)) = .ok true ∧
      get_weather_description 3 = "Overcast" := by
  intro now_iso fetch_now
  refine ⟨rfl, rfl, rfl, rfl, rfl, ?_, rfl⟩
  have h : validate_weather_record (some (recordA fetch_now)) = .ok true ↔
      (((-90:ℚ) ≤ 51.05 ∧ (51.05:ℚ) ≤ 90) ∧
       ((-180:ℚ) ≤ -114.05 ∧ (-114.05:ℚ) ≤ 180) ∧
       ((-100:ℚ) ≤ -5.2 ∧ (-5.2:ℚ) ≤ 60)) :=
    validate_ranges_characterization (recordA fetch_now) 51.05 (-114.05)
      (-5.2) rfl rfl rfl rfl rfl
  exact h.mpr (by norm_num)
